import Mathlib

/-
Verification of the asynchronous driver core in
`socketcan_interface/include/socketcan_interface/asio_base.h` (namespace `can`):
the `AsioDriver` reactor driver, the `StateWaiter` blocking primitive and the
`ThreadedInterface` lifecycle decorator.

Shallow embedding conventions:
- `boost::system::error_code` is modelled as a `Nat` with `0` meaning success
  (C++ `!error` is `error = 0`).
- Observable side effects (dispatching a state or frame to observers, arming a
  read, cancelling/closing the socket, stopping the reactor) are recorded as an
  `Event` trace returned next to the updated driver record.
- The reactor loop executed inside `run()` is abstracted by a `ReactorOutcome`:
  the aggregate effect of the completion handlers on the state record, the
  events they dispatched, the error code returned by `io_service_.run`, and the
  live socket/stop status observed once the loop has exited (a concurrent
  `shutdown()` may have closed the socket meanwhile).
-/

namespace can

/-- Modelled from the spec: the link status enumeration `State::DriverState`
(`closed`, `open`, `ready`) declared in `socketcan_interface/interface.h`,
which is not part of the sources; its three values are used throughout
`asio_base.h`. -/
inductive DriverState where
  | closed
  | «open»
  | ready
deriving DecidableEq, Repr

/-- Modelled from the spec: the `can::State` record declared in
`socketcan_interface/interface.h` (not part of the sources) —
`{ linkStatus : enum closed/open/ready, transportErrorCode, internalErrorCode }`.
The field names `driver_state`, `error_code`, `internal_error` are the ones
`asio_base.h` accesses. -/
structure State where
  driver_state : DriverState
  error_code : Nat
  internal_error : Nat
deriving DecidableEq, Repr

/-- Modelled from the spec: `State::isReady` (declared in `interface.h`, not in
the sources) reports whether the link status is `ready`; `ThreadedInterface::init`
uses it for its fast path. -/
def State.isReady (s : State) : Bool := s.driver_state = DriverState.ready

/-- Modelled from the spec: a frame is an opaque value type with a header used
for filtering; its encoding is out of scope, so header and payload are plain
numbers. -/
structure Frame where
  header : Nat
  data : List Nat
deriving DecidableEq, Repr

/-- An observable side effect of the driver: a dispatch to state observers, a
dispatch of a received frame to frame observers, arming the next asynchronous
read (`triggerReadSome`), cancelling/closing the socket handle, or requesting
the reactor context to stop (`io_service_.stop`). -/
inductive Event where
  | stateDispatch (s : State)
  | frameDispatch (f : Frame)
  | triggerRead
  | socketCancel
  | socketClose
  | ioStop
deriving DecidableEq, Repr

/-- The mutable data of an `AsioDriver` instance: the guarded `state_` record,
the socket handle's open/closed status (`socket_.is_open()`), the reactor
context's stopped flag, and the `input_` buffer holding the last received
frame. -/
structure Driver where
  state_ : State
  socketOpen : Bool
  ioStopped : Bool
  input_ : Frame
deriving DecidableEq, Repr

namespace AsioDriver

/-- `AsioDriver::getState` — thread-safe snapshot of `state_`. -/
def getState (d : Driver) : State := d.state_

/-- `AsioDriver::setErrorCode` — under the state lock, compare-and-assign
`state_.error_code` and dispatch the updated state iff the value changed. -/
def setErrorCode (d : Driver) (error : Nat) : Driver × List Event :=
  if d.state_.error_code ≠ error then
    let s := { d.state_ with error_code := error }
    ({ d with state_ := s }, [Event.stateDispatch s])
  else
    (d, [])

/-- `AsioDriver::setInternalError` — under the state lock, compare-and-assign
`state_.internal_error` and dispatch the updated state iff the value changed. -/
def setInternalError (d : Driver) (internal_error : Nat) : Driver × List Event :=
  if d.state_.internal_error ≠ internal_error then
    let s := { d.state_ with internal_error := internal_error }
    ({ d with state_ := s }, [Event.stateDispatch s])
  else
    (d, [])

/-- `AsioDriver::setDriverState` — under the state lock, compare-and-assign
`state_.driver_state` and dispatch the updated state iff the value changed. -/
def setDriverState (d : Driver) (state : DriverState) : Driver × List Event :=
  if d.state_.driver_state ≠ state then
    let s := { d.state_ with driver_state := state }
    ({ d with state_ := s }, [Event.stateDispatch s])
  else
    (d, [])

/-- `AsioDriver::frameReceived` — read-completion handler: on success dispatch
`input_` to frame observers and re-arm the next read; on error record the code
via `setErrorCode` and do not re-arm. -/
def frameReceived (d : Driver) (error : Nat) : Driver × List Event :=
  if error = 0 then
    (d, [Event.frameDispatch d.input_, Event.triggerRead])
  else
    setErrorCode d error

/-- `AsioDriver::send` — `return getState().driver_state == State::ready &&
enqueue(msg);`. The abstract transport enqueue is passed as `enq`; the second
component records whether `enqueue` was invoked (the C++ `&&` short-circuits,
so it is invoked exactly when the state is `ready`). -/
def send (d : Driver) (enq : Frame → Bool) (msg : Frame) : Bool × Bool :=
  if (getState d).driver_state = DriverState.ready then
    (enq msg, true)
  else
    (false, false)

/-- `AsioDriver::shutdown` — if the socket is open, cancel pending operations
and close it; always request the reactor context to stop. -/
def shutdown (d : Driver) : Driver × List Event :=
  if d.socketOpen then
    ({ d with socketOpen := false, ioStopped := true },
     [Event.socketCancel, Event.socketClose, Event.ioStop])
  else
    ({ d with ioStopped := true }, [Event.ioStop])

/-- `AsioDriver::~AsioDriver` — the destructor body is exactly `shutdown();`. -/
def destructor (d : Driver) : Driver × List Event := shutdown d

/-- Abstraction of everything that happens while `io_service_.run(ec)` blocks
inside `AsioDriver::run`: completion handlers (reads, posted dispatches) run on
the two workers and may mutate the state record and emit events; when the loop
exits, `ec` is the error code it returned and `socketOpenAfter` /
`ioStoppedAfter` are the live socket and stop status at that moment (a
concurrent `shutdown()` may have closed the socket and stopped the context). -/
structure ReactorOutcome where
  loopState : State → State
  loopEvents : List Event
  ec : Nat
  socketOpenAfter : Bool
  ioStoppedAfter : Bool

/-- `AsioDriver::run` — set the link status from the socket's open status; if
open: reset the reactor, set `ready`, arm the first read, drain the loop
(abstracted by `o`), record the loop's error code, recompute the link status
from the live socket status; finally dispatch the final state unconditionally
(`state_dispatcher_.dispatch(state_)`). -/
def run (d : Driver) (o : ReactorOutcome) : Driver × List Event :=
  let r1 := setDriverState d (if d.socketOpen then DriverState.«open» else DriverState.closed)
  if (getState r1.1).driver_state = DriverState.«open» then
    let dReset := { r1.1 with ioStopped := false }
    let r2 := setDriverState dReset DriverState.ready
    let dLoop := { r2.1 with
      state_ := o.loopState r2.1.state_,
      socketOpen := o.socketOpenAfter, ioStopped := o.ioStoppedAfter }
    let r3 := setErrorCode dLoop o.ec
    let r4 := setDriverState r3.1
      (if r3.1.socketOpen then DriverState.«open» else DriverState.closed)
    (r4.1, r1.2 ++ r2.2 ++ [Event.triggerRead] ++ o.loopEvents ++ r3.2 ++ r4.2
           ++ [Event.stateDispatch r4.1.state_])
  else
    (r1.1, r1.2 ++ [Event.stateDispatch r1.1.state_])

/-- The change-driven part of `AsioDriver::run`: the same pipeline of state
mutations, without the unconditional terminal dispatch of line
`state_dispatcher_.dispatch(state_);`. Used to state that the terminal
dispatch is one additional event beyond the notify-on-change mutations. -/
def runMutations (d : Driver) (o : ReactorOutcome) : Driver × List Event :=
  let r1 := setDriverState d (if d.socketOpen then DriverState.«open» else DriverState.closed)
  if (getState r1.1).driver_state = DriverState.«open» then
    let dReset := { r1.1 with ioStopped := false }
    let r2 := setDriverState dReset DriverState.ready
    let dLoop := { r2.1 with
      state_ := o.loopState r2.1.state_,
      socketOpen := o.socketOpenAfter, ioStopped := o.ioStoppedAfter }
    let r3 := setErrorCode dLoop o.ec
    let r4 := setDriverState r3.1
      (if r3.1.socketOpen then DriverState.«open» else DriverState.closed)
    (r4.1, r1.2 ++ r2.2 ++ [Event.triggerRead] ++ o.loopEvents ++ r3.2 ++ r4.2)
  else
    (r1.1, r1.2)

end AsioDriver

namespace StateWaiter

/-- Environment of one `cond_.timed_wait(cond_lock, abs_time)` cycle inside
`StateWaiter::wait`: the wake-ups (notifications from `updateState`, or
spurious ones) that would reach the waiter are a list of `(time, stored state)`
pairs — `updateState` stores the dispatched state before notifying, so at a
wake-up at time `t` the waiter observes `state_ = s`. A wake-up past the
absolute deadline is not delivered: `timed_wait` returns `false` at the
deadline instead. An exhausted list also times out at the deadline. -/
def waitAux (target : DriverState) : DriverState → Nat → Nat → List (Nat × State) → Bool × Nat
  | cur, now, abs, ws =>
    if cur = target then
      (true, now)
    else
      match ws with
      | [] => (false, abs)
      | (t, s) :: rest =>
        if t ≤ abs then waitAux target s.driver_state t abs rest else (false, abs)

/-- `StateWaiter::wait(s, duration)` — compute the absolute deadline
`now + duration` and loop: while the stored status differs from the target,
`timed_wait` until the next wake-up or the deadline; return whether the target
was reached, together with the time at which the call returns. -/
def wait (target cur : DriverState) (now durMs : Nat) (ws : List (Nat × State)) : Bool × Nat :=
  waitAux target cur now (now + durMs) ws

/-- The link statuses the wait loop observes before the deadline `abs` passes:
the status at entry, then the stored status at each wake-up delivered no later
than `abs` (delivery stops at the first wake-up past the deadline). -/
def scanned (cur : DriverState) (abs : Nat) : List (Nat × State) → List DriverState
  | [] => [cur]
  | (t, s) :: rest => if t ≤ abs then cur :: scanned s.driver_state abs rest else [cur]

end StateWaiter

namespace ThreadedInterface

/-- `ThreadedInterface::init(device, loopback)` — if no background thread is
tracked and the wrapped `init` succeeds, spawn a thread running `run()` and
block on `StateWaiter::wait_for(can::State::ready, this,
boost::posix_time::seconds(1))`; otherwise report `getState().isReady()`.
Arguments: whether a thread is tracked, whether the wrapped `init` succeeded,
the wrapped driver's state snapshot taken by the waiter, the current time, and
the wake-ups the waiter would receive. Result: (a thread was spawned, the
boolean `init` returns). Times are in milliseconds, so `seconds(1)` is
`1000`. -/
def init (threadTracked wrappedInitOk : Bool) (st : State) (now : Nat)
    (ws : List (Nat × State)) : Bool × Bool :=
  if !threadTracked && wrappedInitOk then
    (true, (StateWaiter.wait DriverState.ready st.driver_state now 1000 ws).1)
  else
    (false, st.isReady)

end ThreadedInterface

/-- A lock-relevant step of a method of `AsioDriver`: acquiring/releasing the
state lock `state_mutex_` or the transport lock `socket_mutex_`, an access to
the transport handle `socket_` (`is_open`/`cancel`/`close`), the transport
enqueue operation, or the reactor stop request. -/
inductive Action where
  | lockState
  | unlockState
  | lockSocket
  | unlockSocket
  | socketOp
  | enqueueOp
  | ioStopReq
deriving DecidableEq, Repr

namespace AsioDriver

/-- Lock trace of `AsioDriver::getState`: `boost::mutex::scoped_lock
lock(state_mutex_);` then return a copy. -/
def getStateActions : List Action := [Action.lockState, Action.unlockState]

/-- Lock trace of `AsioDriver::send` as written in `asio_base.h`: a `getState()`
snapshot under the state lock, then — only when the status is `ready` — the
abstract `enqueue(msg)` call (whose body lives in the concrete transport).
`send` itself acquires no transport lock around `enqueue`. -/
def sendActions (ready : Bool) : List Action :=
  getStateActions ++ (if ready then [Action.enqueueOp] else [])

/-- Lock trace of `AsioDriver::shutdown` as written in `asio_base.h`:
`socket_.is_open()`, then if open `socket_.cancel()` and `socket_.close()`,
then `io_service_.stop()` — with no lock acquisition anywhere. -/
def shutdownActions (socketOpen : Bool) : List Action :=
  [Action.socketOp]
    ++ (if socketOpen then [Action.socketOp, Action.socketOp] else [])
    ++ [Action.ioStopReq]

/-- Checks, given whether the transport lock is currently held, that every
transport-handle access in the trace happens while the transport lock is
held. -/
def socketAccessesLockedAux : Bool → List Action → Bool
  | _, [] => true
  | _, Action.lockSocket :: rest => socketAccessesLockedAux true rest
  | _, Action.unlockSocket :: rest => socketAccessesLockedAux false rest
  | held, Action.socketOp :: rest => held && socketAccessesLockedAux held rest
  | held, _ :: rest => socketAccessesLockedAux held rest

/-- Every transport-handle access in the trace is serialized on the transport
lock (starting with the lock not held). -/
def socketAccessesLocked (as : List Action) : Bool := socketAccessesLockedAux false as

/-- Checks, given the current held/not-held status of the state lock and the
transport lock, that the two locks are never held simultaneously along the
trace. -/
def noNestedLocksAux : Bool → Bool → List Action → Bool
  | _, _, [] => true
  | st, so, a :: rest =>
    let st' := if a = Action.lockState then true
               else if a = Action.unlockState then false else st
    let so' := if a = Action.lockSocket then true
               else if a = Action.unlockSocket then false else so
    !(st' && so') && noNestedLocksAux st' so' rest

/-- The state lock and the transport lock are never held simultaneously along
the trace (starting with neither held). -/
def noNestedLocks (as : List Action) : Bool := noNestedLocksAux false false as

end AsioDriver

namespace AsioDriver

lemma setErrorCode_fst_socketOpen (d : Driver) (e : Nat) :
    (setErrorCode d e).1.socketOpen = d.socketOpen := by
  unfold setErrorCode; split <;> rfl

lemma setErrorCode_fst_ioStopped (d : Driver) (e : Nat) :
    (setErrorCode d e).1.ioStopped = d.ioStopped := by
  unfold setErrorCode; split <;> rfl

lemma setDriverState_fst_socketOpen (d : Driver) (v : DriverState) :
    (setDriverState d v).1.socketOpen = d.socketOpen := by
  unfold setDriverState; split <;> rfl

lemma setDriverState_fst_ioStopped (d : Driver) (v : DriverState) :
    (setDriverState d v).1.ioStopped = d.ioStopped := by
  unfold setDriverState; split <;> rfl

lemma setDriverState_fst_driver_state (d : Driver) (v : DriverState) :
    (setDriverState d v).1.state_.driver_state = v := by
  unfold setDriverState; split <;> simp_all

end AsioDriver

namespace AsioDriver

/-- C1: `send(frame)` returns true only if the driver's current link status is
`ready` and the transport enqueue succeeds; in every other state it returns
false and the enqueue operation is never invoked (second component `false`). -/
theorem send_spec (d : Driver) (enq : Frame → Bool) (msg : Frame) :
    ((send d enq msg).1 = true ↔
      d.state_.driver_state = DriverState.ready ∧ enq msg = true) ∧
    (d.state_.driver_state ≠ DriverState.ready → send d enq msg = (false, false)) := by
  unfold send getState
  constructor
  · split <;> simp_all
  · intro h; simp [h]

/-- Witness for C1: a freshly closed driver refuses to send and does not invoke
the enqueue operation. -/
theorem send_spec_witness :
    send ⟨⟨DriverState.closed, 0, 0⟩, false, false, ⟨0, []⟩⟩ (fun _ => true) ⟨1, [2]⟩ =
      (false, false) :=
  (send_spec ⟨⟨DriverState.closed, 0, 0⟩, false, false, ⟨0, []⟩⟩ (fun _ => true) ⟨1, [2]⟩).2
    (by decide)

/-- C3: each state-mutation helper (`setErrorCode`, `setInternalError`,
`setDriverState`) compares the new value with the stored field; if it differs,
the field is updated and exactly one notification carrying the updated state is
dispatched; if it is equal, the state is unchanged and nothing is dispatched. -/
theorem state_mutation_helpers_spec (d : Driver) (e ie : Nat) (v : DriverState) :
    ((d.state_.error_code ≠ e →
        (setErrorCode d e).1 = { d with state_ := { d.state_ with error_code := e } } ∧
        (setErrorCode d e).2 = [Event.stateDispatch { d.state_ with error_code := e }]) ∧
      (d.state_.error_code = e → setErrorCode d e = (d, []))) ∧
    ((d.state_.internal_error ≠ ie →
        (setInternalError d ie).1 =
          { d with state_ := { d.state_ with internal_error := ie } } ∧
        (setInternalError d ie).2 =
          [Event.stateDispatch { d.state_ with internal_error := ie }]) ∧
      (d.state_.internal_error = ie → setInternalError d ie = (d, []))) ∧
    ((d.state_.driver_state ≠ v →
        (setDriverState d v).1 = { d with state_ := { d.state_ with driver_state := v } } ∧
        (setDriverState d v).2 = [Event.stateDispatch { d.state_ with driver_state := v }]) ∧
      (d.state_.driver_state = v → setDriverState d v = (d, []))) := by
  unfold setErrorCode setInternalError setDriverState
  refine ⟨⟨?_, ?_⟩, ⟨?_, ?_⟩, ⟨?_, ?_⟩⟩ <;> intro h <;> simp [h]

/-- Witness for C3: changing the error code from 0 to 5 dispatches exactly the
updated state. -/
theorem state_mutation_helpers_spec_witness :
    (setErrorCode ⟨⟨DriverState.closed, 0, 0⟩, false, false, ⟨0, []⟩⟩ 5).2 =
      [Event.stateDispatch ⟨DriverState.closed, 5, 0⟩] :=
  (((state_mutation_helpers_spec ⟨⟨DriverState.closed, 0, 0⟩, false, false, ⟨0, []⟩⟩
      5 0 DriverState.closed).1.1) (by decide)).2

/-- C4: on an error-free read completion the received frame is dispatched and
the next read is re-armed; on an error the read is not re-armed, the error code
is recorded into the driver state (with a state dispatch iff the code changed),
and the reactor loop is not stopped. -/
theorem frameReceived_spec (d : Driver) (err : Nat) :
    (err = 0 →
      frameReceived d err = (d, [Event.frameDispatch d.input_, Event.triggerRead])) ∧
    (err ≠ 0 →
      Event.triggerRead ∉ (frameReceived d err).2 ∧
      (frameReceived d err).1.state_.error_code = err ∧
      (d.state_.error_code ≠ err →
        (frameReceived d err).2 = [Event.stateDispatch (frameReceived d err).1.state_]) ∧
      (d.state_.error_code = err → frameReceived d err = (d, [])) ∧
      (frameReceived d err).1.ioStopped = d.ioStopped ∧
      Event.ioStop ∉ (frameReceived d err).2) := by
  constructor
  · intro h; simp [frameReceived, h]
  · intro h
    unfold frameReceived setErrorCode
    simp only [h, if_neg, ite_false]
    split <;> simp_all

/-- Witness for C4: a successful read completion dispatches the buffered frame
and re-arms the read. -/
theorem frameReceived_spec_witness :
    frameReceived ⟨⟨DriverState.ready, 0, 0⟩, true, false, ⟨7, [1]⟩⟩ 0 =
      (⟨⟨DriverState.ready, 0, 0⟩, true, false, ⟨7, [1]⟩⟩,
       [Event.frameDispatch ⟨7, [1]⟩, Event.triggerRead]) :=
  (frameReceived_spec ⟨⟨DriverState.ready, 0, 0⟩, true, false, ⟨7, [1]⟩⟩ 0).1 rfl

/-- C5: `shutdown()` is idempotent — after a first `shutdown` the socket is
closed, so a second call cancels and closes nothing, dispatches no state, and
its repeated stop request leaves the driver exactly as the first call left
it. -/
theorem shutdown_idempotent (d : Driver) :
    shutdown (shutdown d).1 = ((shutdown d).1, [Event.ioStop]) ∧
    (shutdown d).1.socketOpen = false ∧
    Event.socketCancel ∉ (shutdown (shutdown d).1).2 ∧
    Event.socketClose ∉ (shutdown (shutdown d).1).2 ∧
    (∀ s, Event.stateDispatch s ∉ (shutdown (shutdown d).1).2) := by
  unfold shutdown
  split <;> simp_all

/-- C10: the destructor's effect is exactly that of an explicit `shutdown()`
call — on a driver whose socket is still open it cancels pending operations,
closes the handle, and stops the reactor context. -/
theorem destructor_spec (d : Driver) :
    destructor d = shutdown d ∧
    (d.socketOpen = true →
      (destructor d).2 = [Event.socketCancel, Event.socketClose, Event.ioStop] ∧
      (destructor d).1.socketOpen = false) ∧
    (destructor d).1.ioStopped = true := by
  refine ⟨rfl, ?_, ?_⟩
  · intro h; simp [destructor, shutdown, h]
  · unfold destructor shutdown; split <;> rfl

/-- Witness for C10: destroying a driver with an open socket cancels, closes
and stops the reactor. -/
theorem destructor_spec_witness :
    (destructor ⟨⟨DriverState.ready, 0, 0⟩, true, false, ⟨0, []⟩⟩).2 =
      [Event.socketCancel, Event.socketClose, Event.ioStop] :=
  ((destructor_spec ⟨⟨DriverState.ready, 0, 0⟩, true, false, ⟨0, []⟩⟩).2.1 rfl).1

/-- C9 counterexample: `shutdown` on a driver with an open socket accesses the
transport handle (`is_open`/`cancel`/`close`) while the transport lock is
never acquired, so its accesses are not serialized on that lock. -/
theorem shutdown_socket_access_unlocked :
    socketAccessesLocked (shutdownActions true) = false ∧
    Action.socketOp ∈ shutdownActions true ∧
    Action.lockSocket ∉ shutdownActions true := by decide

/-- C9 (amended): in this core the transport lock `socket_mutex_` is declared
but never acquired — `shutdown` touches the socket without it and `send` takes
only the state lock (the enqueue body lives in the concrete transport);
consequently the state lock and the transport lock are never held
simultaneously. -/
theorem locks_never_nested (ready socketOpen : Bool) :
    Action.lockSocket ∉ shutdownActions socketOpen ∧
    Action.lockSocket ∉ sendActions ready ∧
    noNestedLocks (shutdownActions socketOpen) = true ∧
    noNestedLocks (sendActions ready) = true := by
  cases ready <;> cases socketOpen <;> decide

/-- C8: when `run()` returns, the stored link status equals the socket's live
open/closed status at that moment — recomputed after the reactor loop exits on
the open path, and still matching the (closed) socket on the closed-at-entry
path. -/
theorem run_final_link_status (d : Driver) (o : ReactorOutcome) :
    (run d o).1.state_.driver_state =
      (if (run d o).1.socketOpen then DriverState.«open» else DriverState.closed) := by
  cases hso : d.socketOpen <;>
    simp [run, getState, setDriverState_fst_driver_state, setDriverState_fst_socketOpen,
      setErrorCode_fst_socketOpen, hso]

/-- C2: every invocation of `run()` ends with exactly one additional state
dispatch carrying the final state value, appended after whatever the
change-driven mutations dispatched — so it occurs even when the final value is
identical to the last dispatched value, as the single exception to the
notify-only-on-change rule. -/
theorem run_terminal_dispatch (d : Driver) (o : ReactorOutcome) :
    run d o = ((runMutations d o).1,
      (runMutations d o).2 ++ [Event.stateDispatch (runMutations d o).1.state_]) ∧
    (run d o).2.getLast? = some (Event.stateDispatch (run d o).1.state_) := by
  have h : run d o = ((runMutations d o).1,
      (runMutations d o).2 ++ [Event.stateDispatch (runMutations d o).1.state_]) := by
    cases hso : d.socketOpen <;>
      simp [run, runMutations, getState, setDriverState_fst_driver_state, hso,
        List.append_assoc]
  refine ⟨h, ?_⟩
  rw [h]
  simp [List.getLast?_append_cons]

end AsioDriver

namespace StateWaiter

lemma waitAux_fst_true_iff (target cur : DriverState) (now abs : Nat)
    (ws : List (Nat × State)) :
    (waitAux target cur now abs ws).1 = true ↔ target ∈ scanned cur abs ws := by
  induction ws generalizing cur now with
  | nil =>
    by_cases hc : cur = target
    · simp [waitAux, scanned, hc]
    · simp [waitAux, scanned, hc, Ne.symm hc]
  | cons p rest ih =>
    obtain ⟨t, s⟩ := p
    by_cases hc : cur = target
    · by_cases ht : t ≤ abs <;> simp [waitAux, scanned, hc, ht]
    · by_cases ht : t ≤ abs
      · simpa [waitAux, scanned, hc, Ne.symm hc, ht] using ih s.driver_state t
      · simp [waitAux, scanned, hc, Ne.symm hc, ht]

lemma waitAux_snd_le (target cur : DriverState) (now abs : Nat)
    (ws : List (Nat × State)) (h : now ≤ abs) :
    (waitAux target cur now abs ws).2 ≤ abs := by
  induction ws generalizing cur now with
  | nil =>
    by_cases hc : cur = target <;> simp [waitAux, hc, h]
  | cons p rest ih =>
    obtain ⟨t, s⟩ := p
    by_cases hc : cur = target
    · simp [waitAux, hc, h]
    · by_cases ht : t ≤ abs
      · simpa [waitAux, hc, ht] using ih s.driver_state t ht
      · simp [waitAux, hc, ht]

lemma waitAux_fst_now_irrel (target cur : DriverState) (now now' abs : Nat)
    (ws : List (Nat × State)) :
    (waitAux target cur now abs ws).1 = (waitAux target cur now' abs ws).1 := by
  induction ws generalizing cur now now' with
  | nil =>
    by_cases hc : cur = target <;> simp [waitAux, hc]
  | cons p rest ih =>
    obtain ⟨t, s⟩ := p
    by_cases hc : cur = target
    · simp [waitAux, hc]
    · by_cases ht : t ≤ abs <;> simp [waitAux, hc, ht]

/-- C6: `StateWaiter::wait(s, d)` (i) returns true iff the stored status equals
the target at entry or at some wake-up delivered before the absolute deadline
`now + d` passes, (ii) returns no later than that deadline, and (iii) is robust
to spurious wake-ups — a wake-up that leaves the stored status unchanged does
not change the result, because the predicate is re-checked in a loop. -/
theorem wait_spec (target cur : DriverState) (now durMs t : Nat) (s : State)
    (ws : List (Nat × State)) :
    ((wait target cur now durMs ws).1 = true ↔
      target ∈ scanned cur (now + durMs) ws) ∧
    (wait target cur now durMs ws).2 ≤ now + durMs ∧
    (cur ≠ target → s.driver_state = cur → t ≤ now + durMs →
      (wait target cur now durMs ((t, s) :: ws)).1 = (wait target cur now durMs ws).1) := by
  refine ⟨waitAux_fst_true_iff target cur now (now + durMs) ws,
    waitAux_snd_le target cur now (now + durMs) ws (Nat.le_add_right now durMs), ?_⟩
  intro h1 h2 h3
  unfold wait
  rw [waitAux, if_neg h1]
  simp only [h3, if_pos, h2]
  exact waitAux_fst_now_irrel target cur t now (now + durMs) ws

/-- Witness for C6: a spurious wake-up at time 200 (status still `closed`) does
not change the outcome of waiting for `ready` with a 1000 ms deadline. -/
theorem wait_spec_witness :
    (wait DriverState.ready DriverState.closed 0 1000
        ((200, ⟨DriverState.closed, 0, 0⟩) :: [(500, ⟨DriverState.ready, 0, 0⟩)])).1 =
      (wait DriverState.ready DriverState.closed 0 1000
        [(500, ⟨DriverState.ready, 0, 0⟩)]).1 :=
  (wait_spec DriverState.ready DriverState.closed 0 1000 200 ⟨DriverState.closed, 0, 0⟩
      [(500, ⟨DriverState.ready, 0, 0⟩)]).2.2 (by decide) rfl (by decide)

end StateWaiter

namespace ThreadedInterface

/-- C7: `ThreadedInterface::init` — with no tracked background thread and a
successful wrapped `init`, it spawns the `run()` thread and returns whether the
link status reaches `ready` within the fixed 1-second (1000 ms) bound;
otherwise it spawns nothing and returns whether the wrapped driver is currently
ready — in particular false when initialization failed and the driver remains
`closed`. -/
theorem init_spec (threadTracked wrappedInitOk : Bool) (st : State) (now : Nat)
    (ws : List (Nat × State)) :
    (threadTracked = false → wrappedInitOk = true →
      init threadTracked wrappedInitOk st now ws =
        (true, (StateWaiter.wait DriverState.ready st.driver_state now 1000 ws).1) ∧
      ((init threadTracked wrappedInitOk st now ws).2 = true ↔
        DriverState.ready ∈ StateWaiter.scanned st.driver_state (now + 1000) ws)) ∧
    (threadTracked = true ∨ wrappedInitOk = false →
      init threadTracked wrappedInitOk st now ws = (false, st.isReady)) ∧
    (wrappedInitOk = false → st.driver_state = DriverState.closed →
      (init threadTracked wrappedInitOk st now ws).2 = false) := by
  refine ⟨?_, ?_, ?_⟩
  · intro h1 h2
    refine ⟨by simp [init, h1, h2], ?_⟩
    simp only [init, h1, h2, Bool.not_false, Bool.true_and, if_pos]
    exact StateWaiter.waitAux_fst_true_iff DriverState.ready st.driver_state now (now + 1000) ws
  · intro h
    rcases h with h | h <;> simp [init, h]
  · intro h1 h2
    simp [init, h1, State.isReady, h2]

/-- Witness for C7: a failed wrapped `init` on a driver that remains closed
makes `init` report false. -/
theorem init_spec_witness :
    (init false false ⟨DriverState.closed, 0, 0⟩ 0 []).2 = false :=
  (init_spec false false ⟨DriverState.closed, 0, 0⟩ 0 []).2.2 rfl rfl

end ThreadedInterface

end can
